import Mathlib

/-!
Verification of the boot-to-kernel handoff pipeline of the polished OS
(ofluffydev/polished).  The definitions below are a shallow embedding of the
relevant source files:

* src/elf_loader/src/lib.rs   - `load_kernel`
* src/bootloader/src/lib.rs   - `boot_system`
* src/interrupts/src/lib.rs   - `init_idt`
* src/interrupts/src/cpu_exceptions.rs      - `setup_cpu_exceptions`
* src/interrupts/src/hardware_interrupts.rs - `setup_hardware_interrupts`
* src/gdt/src/lib.rs          - `get_tss`, `init_gdt`
* src/kernel/src/main.rs      - `clear_framebuffer`

Machine integers (`usize`, `u64`) are modelled as `Nat`; every value taken
from an ELF header is a `u64` cast to a 64-bit `usize`, so the bound
`< 2 ^ 64` is carried as an explicit hypothesis where the reasoning needs it.
-/

/-! ## ELF data model (xmas_elf program headers, as consumed by load_kernel) -/

/-- Segment types of the `xmas_elf::program::Type` enum. -/
inductive SegType where
  | null
  | load
  | dynamic
  | interp
  | note
  | shlib
  | phdr
  | tls
  | gnuRelro
  | osSpecific (v : Nat)
  | processorSpecific (v : Nat)
deriving DecidableEq

/-- One program header, holding exactly the fields `load_kernel` reads
(src/elf_loader/src/lib.rs lines 85-113).  `ph_type` is `ph.get_type().ok()`,
so a malformed type field is `none`.  `flags_execute` is
`ph.flags().is_execute()`. -/
structure ProgramHeader where
  ph_type : Option SegType
  offset : Nat
  file_size : Nat
  mem_size : Nat
  virt_addr : Nat
  flags_execute : Bool
deriving DecidableEq

/-- A parsed ELF file: the program-header table and the header entry point
(`elf.header.pt2.entry_point()`). -/
structure ElfImage where
  headers : List ProgramHeader
  entry_point : Nat
deriving DecidableEq

/-- UEFI memory types used by the loader: `MemoryType::LOADER_CODE` and
`MemoryType::LOADER_DATA`. -/
inductive MemoryType where
  | loaderCode
  | loaderData
deriving DecidableEq

/-- Observable actions of `load_kernel` while it walks the program headers:
the "Skipping dynamic segment" warning, a `boot::allocate_pages` request, the
`copy_nonoverlapping` of segment bytes (destination offset inside the
allocation, source offset inside the file buffer, length), and the
`write_bytes(_, 0, _)` zero fill. -/
inductive LoadEvent where
  | warnDynamic
  | allocatePages (addr : Nat) (memType : MemoryType) (numPages : Nat)
  | copySegment (destOffset : Nat) (fileOffset : Nat) (len : Nat)
  | zeroFill (destOffset : Nat) (len : Nat)
deriving DecidableEq

/-- The page size used by the loader: 4 KiB. -/
def PAGE_SIZE : Nat := 0x1000

/-- `virt_addr & !0xFFF` on a 64-bit `usize`: the complement of `0xFFF` in 64
bits is `0xFFFFFFFFFFFFF000` (src/elf_loader/src/lib.rs line 107). -/
def alignedVirtAddr (virt : Nat) : Nat := Nat.land virt 0xFFFFFFFFFFFFF000

/-- `usize::div_ceil`: quotient, plus one when the remainder is non-zero. -/
def divCeil (a b : Nat) : Nat := if 0 < a % b then a / b + 1 else a / b

/-- The parameters of one `boot::allocate_pages(AllocateType::Address(..))`
call (src/elf_loader/src/lib.rs lines 124-128). -/
structure LoadRequest where
  address : Nat
  memType : MemoryType
  numPages : Nat
deriving DecidableEq

/-- The allocation request computed for one loadable segment
(src/elf_loader/src/lib.rs lines 106-128): align the virtual address down to
a page boundary, and allocate `div_ceil(page_offset + mem_size, 0x1000)`
pages there, typed by the execute flag. -/
def segmentRequest (ph : ProgramHeader) : LoadRequest :=
  let aligned := alignedVirtAddr ph.virt_addr
  let pageOffset := ph.virt_addr - aligned
  let totalSize := pageOffset + ph.mem_size
  ⟨aligned,
   if ph.flags_execute then MemoryType.loaderCode else MemoryType.loaderData,
   divCeil totalSize PAGE_SIZE⟩

/-- The events of one loadable segment (src/elf_loader/src/lib.rs lines
106-148): allocate, copy `file_size` bytes from the file offset to
`page_offset` inside the allocation, and zero-fill `mem_size - file_size`
bytes right after the copied bytes when `mem_size > file_size`. -/
def processLoadSegment (ph : ProgramHeader) : List LoadEvent :=
  let pageOffset := ph.virt_addr - alignedVirtAddr ph.virt_addr
  let req := segmentRequest ph
  [LoadEvent.allocatePages req.address req.memType req.numPages,
   LoadEvent.copySegment pageOffset ph.offset ph.file_size] ++
  (if ph.mem_size > ph.file_size then
    [LoadEvent.zeroFill (pageOffset + ph.file_size) (ph.mem_size - ph.file_size)]
  else [])

/-- The events of one program header (src/elf_loader/src/lib.rs lines 84-94):
a dynamic segment produces the warning; any type other than loadable is then
skipped by the `continue`. -/
def segmentEvents (ph : ProgramHeader) : List LoadEvent :=
  (if ph.ph_type = some SegType.dynamic then [LoadEvent.warnDynamic] else []) ++
  (if ph.ph_type ≠ some SegType.load then [] else processLoadSegment ph)

/-- The full event trace of `load_kernel` over all program headers, for a run
in which every allocation succeeds. -/
def load_kernel_events (img : ElfImage) : List LoadEvent :=
  (img.headers.map segmentEvents).flatten

/-- Recognizer for allocation events. -/
def isAllocEvent : LoadEvent → Bool
  | LoadEvent.allocatePages _ _ _ => true
  | _ => false

/-- Recognizer for copy events. -/
def isCopyEvent : LoadEvent → Bool
  | LoadEvent.copySegment _ _ _ => true
  | _ => false

/-- Recognizer for zero-fill events. -/
def isZeroFillEvent : LoadEvent → Bool
  | LoadEvent.zeroFill _ _ => true
  | _ => false

/-- Whether a program header is a loadable segment. -/
def isLoadHeader (ph : ProgramHeader) : Bool :=
  decide (ph.ph_type = some SegType.load)

/-- The allocation requests `load_kernel` issues, in program-header order. -/
def allocRequests (hs : List ProgramHeader) : List LoadRequest :=
  (hs.filter isLoadHeader).map segmentRequest

/-- The segment loop of `load_kernel` with an allocator oracle: `alloc req`
tells whether `boot::allocate_pages` succeeds for that request.  A failing
allocation hits the `.expect("Failed to allocate pages")` and the whole run
aborts through the panic path (src/panic_handler/src/lib.rs), modelled as
`Except.error`. -/
def runSegments (alloc : LoadRequest → Bool) : List ProgramHeader → Except String (List LoadEvent)
  | [] => Except.ok []
  | ph :: rest =>
    if ph.ph_type = some SegType.dynamic then
      Except.map (fun es => LoadEvent.warnDynamic :: es) (runSegments alloc rest)
    else if ph.ph_type ≠ some SegType.load then
      runSegments alloc rest
    else if alloc (segmentRequest ph) then
      Except.map (fun es => processLoadSegment ph ++ es) (runSegments alloc rest)
    else
      Except.error "Failed to allocate pages"

/-- `load_kernel` with its three fallible collaborators made explicit
(src/elf_loader/src/lib.rs lines 75-158): `read_file(file_path)` is
`readResult` (its `.unwrap()` panics on `none`), `ElfFile::new` is `parse`
(its `.expect` panics on `none`), and page allocation is the oracle `alloc`.
A successful run yields the event trace and the header entry point; every
failure is an `Except.error` carrying the panic message - there is no retry
and no fallback value. -/
def load_kernel_run (readResult : Option (List Nat))
    (parse : List Nat → Option ElfImage)
    (alloc : LoadRequest → Bool) : Except String (List LoadEvent × Nat) :=
  match readResult with
  | none => Except.error "read_file returned an error and unwrap panicked"
  | some bytes =>
    match parse bytes with
    | none => Except.error "Failed to parse ELF file"
    | some elf =>
      Except.map (fun es => (es, elf.entry_point)) (runSegments alloc elf.headers)

/-! ## Concrete program headers used by the spec scenarios -/

/-- Scenario segment from the spec: loadable, executable, virtual address
`0x20_1000`, file_size 100, mem_size 4096 (file offset arbitrary). -/
def phScenario1 : ProgramHeader :=
  ⟨some SegType.load, 0x1000, 100, 4096, 0x201000, true⟩

/-- Scenario segment from the spec: loadable at virtual address `0x20_1FF0`,
file_size 32, mem_size 64. -/
def phScenario2 : ProgramHeader :=
  ⟨some SegType.load, 0x2000, 32, 64, 0x201FF0, true⟩

/-- A dynamic segment, for exercising the warning path. -/
def phDynamic : ProgramHeader :=
  ⟨some SegType.dynamic, 0x3000, 16, 16, 0x400000, false⟩

/-- A note segment: neither loadable nor dynamic. -/
def phNote : ProgramHeader :=
  ⟨some SegType.note, 0x4000, 8, 8, 0x500000, false⟩

/-- A one-segment image used to drive the failure-path model. -/
def imgOneLoad : ElfImage := ⟨[phScenario1], 0x201064⟩


/-! ## Control transfer (src/bootloader/src/lib.rs, boot_system) -/

/-- Statement-level steps of `boot_system`. -/
inductive BootStep where
  | loadKernelStep
  | logStep
  | initFramebufferStep
  | setFirstArgRegister
  | callKernelEntry
  | returnToCaller
  | defensiveHalt
deriving DecidableEq

/-- The body of `boot_system` (src/bootloader/src/lib.rs lines 59-89), one
step per statement: `load_kernel`; two info logs; framebuffer setup; two
more info logs; the inline asm `mov rdi, fb_ptr` followed by
`call kernel_entry`; then the end of the function body, which returns to the
caller.  The function contains no halt of any kind after the call. -/
def boot_system_steps : List BootStep :=
  [BootStep.loadKernelStep, BootStep.logStep, BootStep.logStep,
   BootStep.initFramebufferStep, BootStep.logStep, BootStep.logStep,
   BootStep.setFirstArgRegister, BootStep.callKernelEntry, BootStep.returnToCaller]

/-- The steps of `boot_system` after the control transfer. -/
def stepsAfterTransfer : List BootStep :=
  (boot_system_steps.dropWhile (fun s => decide (s ≠ BootStep.callKernelEntry))).tail

/-- The executed trace of `boot_system`.  The kernel entry pointer has type
`unsafe extern "C" fn() -> !`, so in the success path it never returns and
no step after the call ever executes; `kernelEntryReturns = true` models a
contract-violating kernel entry that does return, in which case execution
falls off the end of `boot_system` and returns to its caller. -/
def boot_system_trace (kernelEntryReturns : Bool) : List BootStep :=
  [BootStep.loadKernelStep, BootStep.logStep, BootStep.logStep,
   BootStep.initFramebufferStep, BootStep.logStep, BootStep.logStep,
   BootStep.setFirstArgRegister, BootStep.callKernelEntry] ++
  (if kernelEntryReturns then [BootStep.returnToCaller] else [])

/-! ## Interrupt descriptor table (src/interrupts) -/

/-- The handler functions of src/interrupts/src/cpu_exceptions.rs and
src/interrupts/src/hardware_interrupts.rs, one constructor per
`extern "x86-interrupt" fn`. -/
inductive HandlerId where
  | divide_by_zero_handler
  | general_protection_fault_handler
  | double_fault_handler
  | debug_handler
  | non_maskable_interrupt_handler
  | breakpoint_handler
  | overflow_handler
  | bound_range_exceeded_handler
  | invalid_opcode_handler
  | device_not_available_handler
  | invalid_tss_handler
  | segment_not_present_handler
  | stack_segment_fault_handler
  | page_fault_handler
  | x87_floating_point_handler
  | alignment_check_handler
  | machine_check_handler
  | simd_floating_point_handler
  | virtualization_exception_handler
  | timer_interrupt_handler
  | keyboard_interrupt_handler
  | mouse_interrupt_handler
  | disk_interrupt_handler
  | network_interrupt_handler
  | usb_interrupt_handler
  | other_hardware_interrupt_handler
deriving DecidableEq

/-- One installed IDT entry: the handler and the optional interrupt-stack-
table slot chosen by `set_stack_index` (argument `n` selects
`tss.interrupt_stack_table[n]`). -/
structure IdtEntry where
  handler : HandlerId
  stackIndex : Option Nat
deriving DecidableEq

/-- The 256-slot interrupt descriptor table; `none` is the default (empty)
entry every vector holds after `InterruptDescriptorTable::new()`. -/
def Idt : Type := Nat → Option IdtEntry

/-- A fresh table with every vector at its default. -/
def Idt.new : Idt := fun _ => none

/-- Install an entry at a vector (a `set_handler_fn` call). -/
def Idt.setHandler (idt : Idt) (vec : Nat) (e : IdtEntry) : Idt :=
  fun v => if v = vec then some e else idt v

/-- `setup_cpu_exceptions` (src/interrupts/src/cpu_exceptions.rs lines 7-44),
one `setHandler` per `set_handler_fn` call, in source order.  Vector numbers
follow the x86_64 crate `InterruptDescriptorTable` field layout:
divide_error 0, debug 1, non_maskable_interrupt 2, breakpoint 3, overflow 4,
bound_range_exceeded 5, invalid_opcode 6, device_not_available 7,
double_fault 8, invalid_tss 10, segment_not_present 11,
stack_segment_fault 12, general_protection_fault 13, page_fault 14,
x87_floating_point 16, alignment_check 17, machine_check 18,
simd_floating_point 19, virtualization 20.  `set_stack_index 1` and `2` bind
the double-fault and NMI entries to interrupt-stack-table slots 1 and 2. -/
def setup_cpu_exceptions (idt : Idt) : Idt :=
  let idt := idt.setHandler 8 (IdtEntry.mk HandlerId.double_fault_handler (some 1))
  let idt := idt.setHandler 2 (IdtEntry.mk HandlerId.non_maskable_interrupt_handler (some 2))
  let idt := idt.setHandler 0 (IdtEntry.mk HandlerId.divide_by_zero_handler none)
  let idt := idt.setHandler 13 (IdtEntry.mk HandlerId.general_protection_fault_handler none)
  let idt := idt.setHandler 1 (IdtEntry.mk HandlerId.debug_handler none)
  let idt := idt.setHandler 3 (IdtEntry.mk HandlerId.breakpoint_handler none)
  let idt := idt.setHandler 4 (IdtEntry.mk HandlerId.overflow_handler none)
  let idt := idt.setHandler 5 (IdtEntry.mk HandlerId.bound_range_exceeded_handler none)
  let idt := idt.setHandler 6 (IdtEntry.mk HandlerId.invalid_opcode_handler none)
  let idt := idt.setHandler 7 (IdtEntry.mk HandlerId.device_not_available_handler none)
  let idt := idt.setHandler 10 (IdtEntry.mk HandlerId.invalid_tss_handler none)
  let idt := idt.setHandler 11 (IdtEntry.mk HandlerId.segment_not_present_handler none)
  let idt := idt.setHandler 12 (IdtEntry.mk HandlerId.stack_segment_fault_handler none)
  let idt := idt.setHandler 14 (IdtEntry.mk HandlerId.page_fault_handler none)
  let idt := idt.setHandler 16 (IdtEntry.mk HandlerId.x87_floating_point_handler none)
  let idt := idt.setHandler 17 (IdtEntry.mk HandlerId.alignment_check_handler none)
  let idt := idt.setHandler 18 (IdtEntry.mk HandlerId.machine_check_handler none)
  let idt := idt.setHandler 19 (IdtEntry.mk HandlerId.simd_floating_point_handler none)
  let idt := idt.setHandler 20 (IdtEntry.mk HandlerId.virtualization_exception_handler none)
  idt

/-- `setup_hardware_interrupts` (src/interrupts/src/hardware_interrupts.rs
lines 16-27), one `setHandler` per `idt[n].set_handler_fn` call. -/
def setup_hardware_interrupts (idt : Idt) : Idt :=
  let idt := idt.setHandler 32 (IdtEntry.mk HandlerId.timer_interrupt_handler none)
  let idt := idt.setHandler 33 (IdtEntry.mk HandlerId.keyboard_interrupt_handler none)
  let idt := idt.setHandler 44 (IdtEntry.mk HandlerId.mouse_interrupt_handler none)
  let idt := idt.setHandler 46 (IdtEntry.mk HandlerId.disk_interrupt_handler none)
  let idt := idt.setHandler 43 (IdtEntry.mk HandlerId.network_interrupt_handler none)
  let idt := idt.setHandler 55 (IdtEntry.mk HandlerId.usb_interrupt_handler none)
  let idt := idt.setHandler 47 (IdtEntry.mk HandlerId.other_hardware_interrupt_handler none)
  idt

/-- The table built by the `init_idt` closure (src/interrupts/src/lib.rs
lines 64-69): a fresh table, then CPU exceptions, then hardware
interrupts. -/
def builtIdt : Idt :=
  setup_hardware_interrupts (setup_cpu_exceptions Idt.new)

/-- The exception vectors in 0..31 that actually receive a handler. -/
def installedVectors : List Nat :=
  [0, 1, 2, 3, 4, 5, 6, 7, 8, 10, 11, 12, 13, 14, 16, 17, 18, 19, 20]

/-! ## TSS, GDT, and one-time cells (src/gdt/src/lib.rs) -/

/-- `IST_ENTRIES` (src/gdt/src/lib.rs line 46): slot 0 unused, 1 double
fault, 2 NMI. -/
def IST_ENTRIES : Nat := 3

/-- `IST_STACK_SIZE` (src/gdt/src/lib.rs line 49): 8 KiB per stack. -/
def IST_STACK_SIZE : Nat := 4096 * 2

/-- Address of `IST_STACKS.0[i]` given an abstract base address of the
static, 16-byte-aligned `IST_STACKS` array. -/
def istStackStart (base i : Nat) : Nat := base + i * IST_STACK_SIZE

/-- One past the last byte of stack `i`: the top-of-stack value recorded in
the TSS (stacks grow downward, so the initial stack pointer is the end
address of the region). -/
def istStackEnd (base i : Nat) : Nat := istStackStart base i + IST_STACK_SIZE

/-- Task-state segment, reduced to its interrupt stack table: a slot-indexed
map of stack-pointer values. -/
structure TaskStateSegment where
  interrupt_stack_table : Nat → Nat

/-- `TaskStateSegment::new()`: all slots zero. -/
def TaskStateSegment.new : TaskStateSegment := TaskStateSegment.mk (fun _ => 0)

/-- Write one IST slot. -/
def TaskStateSegment.setIst (t : TaskStateSegment) (i v : Nat) : TaskStateSegment :=
  TaskStateSegment.mk (fun j => if j = i then v else t.interrupt_stack_table j)

/-- The TSS value built by the `get_tss` closure (src/gdt/src/lib.rs lines
70-84): a fresh TSS whose IST slots 1 and 2 receive the stack-end addresses
of `IST_STACKS.0[1]` and `IST_STACKS.0[2]`. -/
def tssInit (base : Nat) : TaskStateSegment :=
  (TaskStateSegment.new.setIst 1 (istStackEnd base 1)).setIst 2 (istStackEnd base 2)

/-- `once_cell::unsync::OnceCell`. -/
structure OnceCell (A : Type) where
  value : Option A

/-- `OnceCell::new()`: empty. -/
def OnceCell.new {A : Type} : OnceCell A := OnceCell.mk none

/-- `get_or_init`: the stored value, the cell afterwards, and whether the
closure ran. -/
def OnceCell.get_or_init {A : Type} (c : OnceCell A) (f : Unit → A) : A × OnceCell A × Bool :=
  match c.value with
  | some v => (v, c, false)
  | none =>
    let v := f ()
    (v, OnceCell.mk (some v), true)

/-- `get_tss` (src/gdt/src/lib.rs lines 67-87): construct-on-first-use
through the `TSS` cell. -/
def get_tss (base : Nat) (c : OnceCell TaskStateSegment) :
    TaskStateSegment × OnceCell TaskStateSegment × Bool :=
  c.get_or_init (fun _ => tssInit base)

/-- The GDT descriptors appended by `init_gdt` (src/gdt/src/lib.rs lines
117-128). -/
inductive GdtDescriptor where
  | kernel_code_segment
  | kernel_data_segment
  | user_code_segment
  | user_data_segment
  | tss_segment (tss : TaskStateSegment)

/-- The value stored in the `GDT` cell: the five descriptors in append order
and the four selectors (their table indices) kept for the kernel code,
kernel data, user code and user data segments. -/
structure GdtData where
  table : List GdtDescriptor
  selectors : List Nat

/-- The table built by the `init_gdt` closure. -/
def gdtBuild (tss : TaskStateSegment) : GdtData :=
  GdtData.mk
    [GdtDescriptor.kernel_code_segment, GdtDescriptor.kernel_data_segment,
     GdtDescriptor.user_code_segment, GdtDescriptor.user_data_segment,
     GdtDescriptor.tss_segment tss]
    [1, 2, 3, 4]

/-- The two once-cells of src/gdt/src/lib.rs: `GDT` and `TSS`. -/
structure GdtCells where
  gdtCell : OnceCell GdtData
  tssCell : OnceCell TaskStateSegment

/-- Fresh cells, as at program start. -/
def gdtCellsNew : GdtCells := GdtCells.mk OnceCell.new OnceCell.new

/-- `init_gdt` (src/gdt/src/lib.rs lines 112-141): `GDT.get_or_init` with a
closure that appends the five descriptors, calling `get_tss` (which touches
the `TSS` cell).  Returns the table observed by the caller (which the source
then loads with `lgdt`, rewriting the segment registers to the same
selectors on every call), the cell state afterwards, and whether the closure
ran. -/
def init_gdt (base : Nat) (s : GdtCells) : GdtData × GdtCells × Bool :=
  match s.gdtCell.value with
  | some g => (g, s, false)
  | none =>
    let t := get_tss base s.tssCell
    let g := gdtBuild t.1
    (g, GdtCells.mk (OnceCell.mk (some g)) t.2.1, true)

/-- `init_idt` (src/interrupts/src/lib.rs lines 60-72): `IDT.get_or_init`
with the closure building `builtIdt`; the source then loads the result with
`lidt` on every call. -/
def init_idt (c : OnceCell Idt) : Idt × OnceCell Idt × Bool :=
  c.get_or_init (fun _ => builtIdt)

/-- A fresh `IDT` cell, as at program start. -/
def idtCellNew : OnceCell Idt := OnceCell.new

/-! ## Framebuffer clear (src/kernel/src/main.rs, src/graphics) -/

/-- Pixel formats of src/graphics/src/framebuffer.rs. -/
inductive FramebufferFormat where
  | rgb
  | bgr
  | bitmask
  | bltOnly
deriving DecidableEq

/-- `FramebufferInfo` (src/graphics/src/framebuffer.rs lines 28-41);
`stride` counts pixels per row and may exceed `width`. -/
structure FramebufferInfo where
  address : Nat
  size : Nat
  width : Nat
  height : Nat
  stride : Nat
  format : FramebufferFormat
deriving DecidableEq

/-- The byte writes (address, value) performed by the full-clear loop of
`clear_framebuffer` (src/kernel/src/main.rs lines 59-71): for a non-null
pointer the code builds the byte slice `from_raw_parts_mut(fb.address,
fb.size)` and stores 0 into each of its `fb.size` bytes; for a null pointer
it only emits a warning and writes nothing.  The `framebuffer_x_demo` call
after the loop is a separate drawing pass, not part of the full clear. -/
def clear_framebuffer_writes (fbOpt : Option FramebufferInfo) : List (Nat × Nat) :=
  match fbOpt with
  | none => []
  | some fb => (List.range fb.size).map (fun i => (fb.address + i, 0))

/-- The framebuffer of the spec scenario: width 800, stride 1024, height
600, 4 bytes per pixel; the linear buffer size reported by firmware covers
the stride padding, so it is stride * height * 4 bytes. -/
def exampleFb : FramebufferInfo :=
  FramebufferInfo.mk 0xE0000000 (1024 * 600 * 4) 800 600 1024 FramebufferFormat.bgr

/-! ## Helper lemmas about the address arithmetic -/

/-- Masking a 64-bit value with `0xFFFFFFFFFFFFF000` clears its low 12 bits:
it equals the value minus its remainder mod 4096. -/
theorem land_high_mask (v : Nat) (hv : v < 2 ^ 64) :
    Nat.land v 0xFFFFFFFFFFFFF000 = v - v % 4096 := by
  have hmask : (0xFFFFFFFFFFFFF000 : Nat) = (2 ^ 52 - 1) <<< 12 := by decide
  have hshift : v / 4096 * 4096 = (v >>> 12) <<< 12 := by
    rw [Nat.shiftRight_eq_div_pow, Nat.shiftLeft_eq]
  have hbit : Nat.land v 0xFFFFFFFFFFFFF000 = (v >>> 12) <<< 12 := by
    apply Nat.eq_of_testBit_eq
    intro i
    have hland : (Nat.land v 0xFFFFFFFFFFFFF000).testBit i
        = (v.testBit i && (((2 ^ 52 - 1) <<< 12).testBit i)) := by
      rw [← hmask]
      exact Nat.testBit_land v 0xFFFFFFFFFFFFF000 i
    rw [hland, Nat.testBit_shiftLeft, Nat.testBit_shiftLeft, Nat.testBit_shiftRight,
        Nat.testBit_two_pow_sub_one]
    rcases Nat.lt_or_ge i 12 with h12 | h12
    · have h1 : decide (i ≥ 12) = false := by
        rw [decide_eq_false_iff_not]
        omega
      simp [h1]
    · have h1 : decide (i ≥ 12) = true := by
        rw [decide_eq_true_eq]
        omega
      have h2 : 12 + (i - 12) = i := by omega
      rcases Nat.lt_or_ge i 64 with h64 | h64
      · have h3 : decide (i - 12 < 52) = true := by
          rw [decide_eq_true_eq]
          omega
        simp [h1, h2, h3]
      · have h3 : decide (i - 12 < 52) = false := by
          rw [decide_eq_false_iff_not]
          omega
        have h4 : v.testBit i = false :=
          Nat.testBit_eq_false_of_lt
            (lt_of_lt_of_le hv (Nat.pow_le_pow_right (by norm_num) h64))
        simp [h1, h2, h3, h4]
  rw [hbit, ← hshift]
  have := Nat.div_add_mod v 4096
  omega

/-- The aligned virtual address is the value rounded down to a page
boundary. -/
theorem alignedVirtAddr_spec (v : Nat) (hv : v < 2 ^ 64) :
    alignedVirtAddr v = v - v % PAGE_SIZE :=
  land_high_mask v hv

/-- `usize::div_ceil` by the page size agrees with the ceiling formula
`(a + page_size - 1) / page_size`. -/
theorem divCeil_page (a : Nat) :
    divCeil a PAGE_SIZE = (a + (PAGE_SIZE - 1)) / PAGE_SIZE := by
  unfold divCeil PAGE_SIZE
  split <;> omega

/-- For a loadable segment the dynamic warning does not fire and the
`continue` is not taken, so the events are exactly the load processing. -/
theorem segmentEvents_load (ph : ProgramHeader) (hl : ph.ph_type = some SegType.load) :
    segmentEvents ph = processLoadSegment ph := by
  have hd : ¬ ph.ph_type = some SegType.dynamic := by rw [hl]; decide
  simp [segmentEvents, hl, hd]

/-- Per-segment count of allocation events: one for a loadable segment, zero
otherwise. -/
theorem segmentEvents_alloc_length (ph : ProgramHeader) :
    ((segmentEvents ph).filter isAllocEvent).length = (if isLoadHeader ph then 1 else 0) := by
  by_cases hl : ph.ph_type = some SegType.load
  · rw [segmentEvents_load ph hl]
    by_cases hz : ph.file_size < ph.mem_size
    · simp [processLoadSegment, isAllocEvent, isLoadHeader, hl, hz]
    · simp [processLoadSegment, isAllocEvent, isLoadHeader, hl, hz]
  · simp only [segmentEvents, isLoadHeader, hl]
    by_cases hd : ph.ph_type = some SegType.dynamic
    · simp [hd, isAllocEvent, hl]
    · simp [hd, isAllocEvent, hl]

/-- Per-segment count of copy events: one for a loadable segment, zero
otherwise. -/
theorem segmentEvents_copy_length (ph : ProgramHeader) :
    ((segmentEvents ph).filter isCopyEvent).length = (if isLoadHeader ph then 1 else 0) := by
  by_cases hl : ph.ph_type = some SegType.load
  · rw [segmentEvents_load ph hl]
    by_cases hz : ph.file_size < ph.mem_size
    · simp [processLoadSegment, isCopyEvent, isLoadHeader, hl, hz]
    · simp [processLoadSegment, isCopyEvent, isLoadHeader, hl, hz]
  · simp only [segmentEvents, isLoadHeader, hl]
    by_cases hd : ph.ph_type = some SegType.dynamic
    · simp [hd, isCopyEvent, hl]
    · simp [hd, isCopyEvent, hl]

/-- Prepending a loadable header to the table prepends its allocation
request. -/
theorem allocRequests_cons_load (ph : ProgramHeader) (rest : List ProgramHeader)
    (hl : isLoadHeader ph = true) :
    allocRequests (ph :: rest) = segmentRequest ph :: allocRequests rest := by
  simp [allocRequests, List.filter_cons, hl]

/-- Prepending a non-loadable header to the table adds no allocation
request. -/
theorem allocRequests_cons_skip (ph : ProgramHeader) (rest : List ProgramHeader)
    (hl : isLoadHeader ph = false) :
    allocRequests (ph :: rest) = allocRequests rest := by
  simp [allocRequests, List.filter_cons, hl]

/-- The loader performs exactly one allocation per loadable header. -/
theorem load_kernel_alloc_count (hs : List ProgramHeader) :
    (((hs.map segmentEvents).flatten).filter isAllocEvent).length
      = (hs.filter isLoadHeader).length := by
  induction hs with
  | nil => rfl
  | cons ph rest ih =>
    simp only [List.map_cons, List.flatten_cons, List.filter_append, List.length_append, ih,
      List.filter_cons, segmentEvents_alloc_length]
    by_cases h : isLoadHeader ph
    · simp [h]
      omega
    · simp [h]

/-- The loader performs exactly one copy per loadable header. -/
theorem load_kernel_copy_count (hs : List ProgramHeader) :
    (((hs.map segmentEvents).flatten).filter isCopyEvent).length
      = (hs.filter isLoadHeader).length := by
  induction hs with
  | nil => rfl
  | cons ph rest ih =>
    simp only [List.map_cons, List.flatten_cons, List.filter_append, List.length_append, ih,
      List.filter_cons, segmentEvents_copy_length]
    by_cases h : isLoadHeader ph
    · simp [h]
      omega
    · simp [h]

/-- C1: for every loadable segment processed by load_kernel, the loader
computes `aligned_virtual_address = virtual_address & not (page_size - 1)`
(so `aligned <= virtual_address < aligned + page_size`),
`page_offset = virtual_address - aligned` (equal to
`virtual_address mod page_size`), and issues exactly one fixed-address
allocation request, for `ceil(page_offset + memory_size, page_size)` pages at
exactly the aligned address. -/
theorem claim_C1 (ph : ProgramHeader) (hload : ph.ph_type = some SegType.load)
    (hv : ph.virt_addr < 2 ^ 64) :
    alignedVirtAddr ph.virt_addr ≤ ph.virt_addr ∧
    ph.virt_addr < alignedVirtAddr ph.virt_addr + PAGE_SIZE ∧
    ph.virt_addr - alignedVirtAddr ph.virt_addr = ph.virt_addr % PAGE_SIZE ∧
    (segmentEvents ph).filter isAllocEvent =
      [LoadEvent.allocatePages (alignedVirtAddr ph.virt_addr)
        (if ph.flags_execute then MemoryType.loaderCode else MemoryType.loaderData)
        (((ph.virt_addr - alignedVirtAddr ph.virt_addr) + ph.mem_size + (PAGE_SIZE - 1))
          / PAGE_SIZE)] := by
  have ha := alignedVirtAddr_spec ph.virt_addr hv
  have hps : PAGE_SIZE = 4096 := rfl
  refine ⟨?_, ?_, ?_, ?_⟩
  · rw [ha, hps]
    omega
  · rw [ha, hps]
    omega
  · rw [ha, hps]
    omega
  · rw [segmentEvents_load ph hload]
    by_cases hz : ph.file_size < ph.mem_size
    · simp [processLoadSegment, segmentRequest, isAllocEvent, hz, divCeil_page]
    · simp [processLoadSegment, segmentRequest, isAllocEvent, hz, divCeil_page]

/-- Witness for C1 at the concrete spec segment with virtual address
`0x20_1FF0`. -/
theorem claim_C1_witness :
    (phScenario2.ph_type = some SegType.load ∧ phScenario2.virt_addr < 2 ^ 64) ∧
    (alignedVirtAddr phScenario2.virt_addr ≤ phScenario2.virt_addr ∧
     phScenario2.virt_addr < alignedVirtAddr phScenario2.virt_addr + PAGE_SIZE ∧
     phScenario2.virt_addr - alignedVirtAddr phScenario2.virt_addr
        = phScenario2.virt_addr % PAGE_SIZE ∧
     (segmentEvents phScenario2).filter isAllocEvent =
       [LoadEvent.allocatePages (alignedVirtAddr phScenario2.virt_addr)
         (if phScenario2.flags_execute then MemoryType.loaderCode else MemoryType.loaderData)
         (((phScenario2.virt_addr - alignedVirtAddr phScenario2.virt_addr)
             + phScenario2.mem_size + (PAGE_SIZE - 1)) / PAGE_SIZE)]) :=
  ⟨⟨rfl, by decide⟩, claim_C1 phScenario2 rfl (by decide)⟩

/-- C2: for every loadable segment, load_kernel copies exactly `file_size`
bytes from the image buffer at the file offset into the allocation at
`page_offset`, then writes `mem_size - file_size` zero bytes immediately
after the copied bytes if and only if `mem_size > file_size`; over a whole
image the number of allocation events and of copy events both equal the
number of loadable segments. -/
theorem claim_C2 :
    (∀ ph : ProgramHeader, ph.ph_type = some SegType.load →
      segmentEvents ph =
        [LoadEvent.allocatePages (segmentRequest ph).address (segmentRequest ph).memType
           (segmentRequest ph).numPages,
         LoadEvent.copySegment (ph.virt_addr - alignedVirtAddr ph.virt_addr) ph.offset
           ph.file_size] ++
        (if ph.mem_size > ph.file_size then
          [LoadEvent.zeroFill ((ph.virt_addr - alignedVirtAddr ph.virt_addr) + ph.file_size)
            (ph.mem_size - ph.file_size)]
        else [])) ∧
    (∀ img : ElfImage,
      ((load_kernel_events img).filter isAllocEvent).length
          = (img.headers.filter isLoadHeader).length ∧
      ((load_kernel_events img).filter isCopyEvent).length
          = (img.headers.filter isLoadHeader).length) := by
  constructor
  · intro ph hl
    rw [segmentEvents_load ph hl]
    rfl
  · intro img
    exact ⟨load_kernel_alloc_count img.headers, load_kernel_copy_count img.headers⟩

/-- Witness for C2 at the concrete loadable segment `phScenario1`. -/
theorem claim_C2_witness :
    phScenario1.ph_type = some SegType.load ∧
    segmentEvents phScenario1 =
      [LoadEvent.allocatePages (segmentRequest phScenario1).address
         (segmentRequest phScenario1).memType (segmentRequest phScenario1).numPages,
       LoadEvent.copySegment (phScenario1.virt_addr - alignedVirtAddr phScenario1.virt_addr)
         phScenario1.offset phScenario1.file_size] ++
      (if phScenario1.mem_size > phScenario1.file_size then
        [LoadEvent.zeroFill
          ((phScenario1.virt_addr - alignedVirtAddr phScenario1.virt_addr)
            + phScenario1.file_size)
          (phScenario1.mem_size - phScenario1.file_size)]
      else []) :=
  ⟨rfl, claim_C2.1 phScenario1 rfl⟩

/-- Counterexample to C3 as stated: the first scenario segment (virtual
address `0x20_1000`, mem_size 4096, already page aligned) needs
`ceil(0 + 4096, 4096) = 1` page, not the 2 pages the claim expects. -/
theorem claim_C3_counterexample :
    (segmentRequest phScenario1).address = 0x201000 ∧
    (segmentRequest phScenario1).numPages = 1 ∧
    ¬ (segmentRequest phScenario1).numPages = 2 := by decide

/-- C3 (amended): for the segment at `0x20_1000` with file_size 100 and
mem_size 4096 the loader allocates 1 page at `0x20_1000`; for the segment at
`0x20_1FF0` with file_size 32 and mem_size 64 it computes aligned address
`0x20_1000`, page_offset `0xFF0`, total size `0x1030`, and allocates
2 pages. -/
theorem claim_C3 :
    (segmentRequest phScenario1).address = 0x201000 ∧
    (segmentRequest phScenario1).numPages = 1 ∧
    alignedVirtAddr phScenario2.virt_addr = 0x201000 ∧
    phScenario2.virt_addr - alignedVirtAddr phScenario2.virt_addr = 0xFF0 ∧
    phScenario2.virt_addr - alignedVirtAddr phScenario2.virt_addr + phScenario2.mem_size
      = 0x1030 ∧
    (segmentRequest phScenario2).address = 0x201000 ∧
    (segmentRequest phScenario2).numPages = 2 := by decide

/-- C8: a dynamic segment produces only the warning diagnostic (no
allocation, no copy); a segment that is neither loadable nor dynamic
produces no event at all. -/
theorem claim_C8 (ph : ProgramHeader) :
    (ph.ph_type = some SegType.dynamic → segmentEvents ph = [LoadEvent.warnDynamic]) ∧
    (ph.ph_type ≠ some SegType.load → ph.ph_type ≠ some SegType.dynamic →
      segmentEvents ph = []) := by
  constructor
  · intro hd
    have hl : ¬ ph.ph_type = some SegType.load := by rw [hd]; decide
    simp [segmentEvents, hd, hl]
  · intro hl hd
    simp [segmentEvents, hd, hl]

/-- Witness for C8 at a concrete dynamic segment and a concrete note
segment. -/
theorem claim_C8_witness :
    segmentEvents phDynamic = [LoadEvent.warnDynamic] ∧ segmentEvents phNote = [] :=
  ⟨(claim_C8 phDynamic).1 rfl, (claim_C8 phNote).2 (by decide) (by decide)⟩

/-- If some allocation request of the header table is refused, the segment
loop aborts with the allocation panic message. -/
theorem runSegments_error_of_alloc_fail (alloc : LoadRequest → Bool) :
    ∀ hs : List ProgramHeader, (∃ q ∈ allocRequests hs, alloc q = false) →
      runSegments alloc hs = Except.error "Failed to allocate pages" := by
  intro hs
  induction hs with
  | nil =>
    rintro ⟨q, hq, _⟩
    simp [allocRequests] at hq
  | cons ph rest ih =>
    intro h
    by_cases hd : ph.ph_type = some SegType.dynamic
    · have hl : isLoadHeader ph = false := by simp [isLoadHeader, hd]
      rw [allocRequests_cons_skip ph rest hl] at h
      simp [runSegments, hd, ih h, Except.map]
    · by_cases hl : ph.ph_type = some SegType.load
      · have hl2 : isLoadHeader ph = true := by simp [isLoadHeader, hl]
        rw [allocRequests_cons_load ph rest hl2] at h
        by_cases halloc : alloc (segmentRequest ph) = true
        · have h2 : ∃ q ∈ allocRequests rest, alloc q = false := by
            rcases h with ⟨q, hq, hfq⟩
            rw [List.mem_cons] at hq
            rcases hq with rfl | hq
            · simp [halloc] at hfq
            · exact ⟨q, hq, hfq⟩
          simp [runSegments, hd, hl, halloc, ih h2, Except.map]
        · have halloc2 : alloc (segmentRequest ph) = false := by
            revert halloc
            cases alloc (segmentRequest ph) <;> simp
          simp [runSegments, hd, hl, halloc2]
      · have hl2 : isLoadHeader ph = false := by simp [isLoadHeader, hl]
        rw [allocRequests_cons_skip ph rest hl2] at h
        simp [runSegments, hd, hl, ih h]

/-- C9: a failed file read, a failed image parse, and a failed page
allocation each make `load_kernel` abort through the panic path with the
corresponding message - no result is produced, with no retry and no fallback
kernel. -/
theorem claim_C9 :
    (∀ (parse : List Nat → Option ElfImage) (alloc : LoadRequest → Bool),
      load_kernel_run none parse alloc
        = Except.error "read_file returned an error and unwrap panicked") ∧
    (∀ (bytes : List Nat) (parse : List Nat → Option ElfImage) (alloc : LoadRequest → Bool),
      parse bytes = none →
      load_kernel_run (some bytes) parse alloc = Except.error "Failed to parse ELF file") ∧
    (∀ (bytes : List Nat) (parse : List Nat → Option ElfImage) (alloc : LoadRequest → Bool)
        (img : ElfImage),
      parse bytes = some img →
      (∃ q ∈ allocRequests img.headers, alloc q = false) →
      load_kernel_run (some bytes) parse alloc
        = Except.error "Failed to allocate pages") := by
  refine ⟨fun parse alloc => rfl, ?_, ?_⟩
  · intro bytes parse alloc hp
    simp [load_kernel_run, hp]
  · intro bytes parse alloc img hp hfail
    simp [load_kernel_run, hp, runSegments_error_of_alloc_fail alloc img.headers hfail,
      Except.map]

/-- Witness for C9: an allocator that refuses every request makes the run on
a one-segment image abort with the allocation panic message. -/
theorem claim_C9_witness :
    ((fun _ : List Nat => some imgOneLoad) [] = some imgOneLoad) ∧
    (∃ q ∈ allocRequests imgOneLoad.headers, (fun _ : LoadRequest => false) q = false) ∧
    load_kernel_run (some []) (fun _ => some imgOneLoad) (fun _ => false)
      = Except.error "Failed to allocate pages" :=
  ⟨rfl, ⟨segmentRequest phScenario1, by decide, rfl⟩,
    claim_C9.2.2 [] (fun _ => some imgOneLoad) (fun _ => false) imgOneLoad rfl
      ⟨segmentRequest phScenario1, by decide, rfl⟩⟩

/-- Counterexample to C4 as stated: the only code after the control transfer
in `boot_system` is the end of the function body - a plain return to the
caller, not a defensive halt; `boot_system` contains no halt step at all. -/
theorem claim_C4_counterexample :
    stepsAfterTransfer = [BootStep.returnToCaller] ∧
    stepsAfterTransfer.all (fun s => decide (s = BootStep.defensiveHalt)) = false ∧
    BootStep.defensiveHalt ∉ boot_system_steps := by decide

/-- C4 (amended): `boot_system` never returns in the success path - the
kernel entry contract is non-returning, so the trace with a conforming
kernel contains no return-to-caller step; however there is no defensive halt
after the transfer: the function body simply ends, so a kernel entry that
returned would make `boot_system` return to its caller. -/
theorem claim_C4 :
    BootStep.returnToCaller ∉ boot_system_trace false ∧
    stepsAfterTransfer = [BootStep.returnToCaller] ∧
    BootStep.defensiveHalt ∉ boot_system_steps ∧
    boot_system_trace true
      = [BootStep.loadKernelStep, BootStep.logStep, BootStep.logStep,
         BootStep.initFramebufferStep, BootStep.logStep, BootStep.logStep,
         BootStep.setFirstArgRegister, BootStep.callKernelEntry,
         BootStep.returnToCaller] := by decide

/-- Counterexample to C5 as stated: exception vector 9 (coprocessor segment
overrun) keeps its default empty entry after table construction, so not
every vector 0-31 has a non-default handler. -/
theorem claim_C5_counterexample :
    builtIdt 9 = none ∧ ¬ (∀ v : Nat, v < 32 → builtIdt v ≠ none) := by decide

/-- C5 (amended): after vector-table construction, a vector in 0..31 has a
non-default handler exactly when it is one of the 19 vectors the code
installs (0-8, 10-14, 16-20); vectors 9, 15 and 21-31 keep the default empty
entry. -/
theorem claim_C5 :
    ∀ v : Nat, v < 32 → (builtIdt v ≠ none ↔ v ∈ installedVectors) := by decide

/-- Witness for C5 at vector 0. -/
theorem claim_C5_witness :
    (0 : Nat) < 32 ∧ (builtIdt 0 ≠ none ↔ 0 ∈ installedVectors) :=
  ⟨by decide, claim_C5 0 (by decide)⟩

/-- IST slot 1 of the constructed TSS holds the end address of stack 1. -/
theorem tssInit_slot1 (base : Nat) :
    (tssInit base).interrupt_stack_table 1 = istStackEnd base 1 := by
  simp [tssInit, TaskStateSegment.setIst, TaskStateSegment.new]

/-- IST slot 2 of the constructed TSS holds the end address of stack 2. -/
theorem tssInit_slot2 (base : Nat) :
    (tssInit base).interrupt_stack_table 2 = istStackEnd base 2 := by
  simp [tssInit, TaskStateSegment.setIst, TaskStateSegment.new]

/-- C6: the double-fault vector is bound to interrupt-stack-table index 1
and the NMI vector to index 2, and for any base address of the static
`IST_STACKS` array, TSS IST slots 1 and 2 hold the top-of-stack addresses of
their respective 8 KiB stack regions, each lying within that region's
address range (taking the range inclusive of its top boundary, where the
initial stack pointer of a downward-growing stack sits). -/
theorem claim_C6 (base : Nat) :
    builtIdt 8 = some (IdtEntry.mk HandlerId.double_fault_handler (some 1)) ∧
    builtIdt 2 = some (IdtEntry.mk HandlerId.non_maskable_interrupt_handler (some 2)) ∧
    ((tssInit base).interrupt_stack_table 1 = istStackEnd base 1 ∧
     istStackStart base 1 ≤ (tssInit base).interrupt_stack_table 1 ∧
     (tssInit base).interrupt_stack_table 1 ≤ istStackStart base 1 + IST_STACK_SIZE) ∧
    ((tssInit base).interrupt_stack_table 2 = istStackEnd base 2 ∧
     istStackStart base 2 ≤ (tssInit base).interrupt_stack_table 2 ∧
     (tssInit base).interrupt_stack_table 2 ≤ istStackStart base 2 + IST_STACK_SIZE) := by
  have h1 := tssInit_slot1 base
  have h2 := tssInit_slot2 base
  refine ⟨by decide, by decide, ⟨h1, ?_, ?_⟩, ⟨h2, ?_, ?_⟩⟩ <;>
    simp [h1, h2, istStackEnd, istStackStart, IST_STACK_SIZE]

/-- C7: the descriptor-table and vector-table initializers are idempotent
under repeated calls: the first call runs the construction closure exactly
once, and a second call observes the very same table value and cell state
while its closure does not run (so nothing is re-allocated and no fault
stack is re-registered). -/
theorem claim_C7 (base : Nat) :
    ((init_gdt base (init_gdt base gdtCellsNew).2.1).1 = (init_gdt base gdtCellsNew).1 ∧
     (init_gdt base (init_gdt base gdtCellsNew).2.1).2.1 = (init_gdt base gdtCellsNew).2.1 ∧
     (init_gdt base gdtCellsNew).2.2 = true ∧
     (init_gdt base (init_gdt base gdtCellsNew).2.1).2.2 = false) ∧
    ((init_idt (init_idt idtCellNew).2.1).1 = (init_idt idtCellNew).1 ∧
     (init_idt (init_idt idtCellNew).2.1).2.1 = (init_idt idtCellNew).2.1 ∧
     (init_idt idtCellNew).2.2 = true ∧
     (init_idt (init_idt idtCellNew).2.1).2.2 = false) :=
  ⟨⟨rfl, rfl, rfl, rfl⟩, ⟨rfl, rfl, rfl, rfl⟩⟩

/-- C10: for every non-null framebuffer description the full-clear loop
writes exactly `size` zero bytes, all inside the buffer
`[address, address + size)`; for the spec scenario (width 800, stride 1024,
height 600) that `size` respects the stride padding and differs from
`width * height * 4`; for a null description pointer nothing is written. -/
theorem claim_C10 :
    (∀ fb : FramebufferInfo,
      (clear_framebuffer_writes (some fb)).length = fb.size ∧
      (clear_framebuffer_writes (some fb)).all
        (fun w => decide (w.2 = 0) && decide (fb.address ≤ w.1)
          && decide (w.1 < fb.address + fb.size)) = true) ∧
    (exampleFb.size = exampleFb.stride * exampleFb.height * 4 ∧
     exampleFb.size ≠ exampleFb.width * exampleFb.height * 4) ∧
    clear_framebuffer_writes none = [] := by
  refine ⟨fun fb => ⟨?_, ?_⟩, by decide, rfl⟩
  · simp [clear_framebuffer_writes]
  · rw [List.all_eq_true]
    intro w hw
    simp only [clear_framebuffer_writes, List.mem_map, List.mem_range] at hw
    rcases hw with ⟨i, hi, rfl⟩
    simp [hi]
